import Mathlib

/-!
Verification development for the gobbldygook area auditor.

The Python sources are embedded shallowly: frozen `attr` classes become Lean
structures, mutation of the per-audit `RequirementContext` becomes explicit
state passing, `Decimal` becomes `Rat`, Python `set` becomes `Finset`, and
fallible code (assertions, raised exceptions) returns `Except String _`.

Two snapshots of the package appear in the sources; they are kept apart here
as the namespaces `Degreepath` (src/degreepath: claim arbitration and the
requirement context) and `Dp` (src/dp: assertions, conditional assertions,
and requirement rules).
-/

namespace Degreepath

/-- Comparison operators recognised in clauses.

Modelled from the spec: src/degreepath/operator.py is not among the sources;
the spec lists `operator` of a single clause as one of
EQ, NEQ, LT, LTE, GT, GTE, IN, NOT_IN. -/
inductive Operator where
  | EqualTo
  | NotEqualTo
  | LessThan
  | LessThanOrEqualTo
  | GreaterThan
  | GreaterThanOrEqualTo
  | In
  | NotIn
deriving DecidableEq, Repr

/-- The `expected` value carried by a single clause: a scalar string or a
tuple of strings (the two shapes the subset test distinguishes).

Modelled from the spec: src/degreepath/clause.py is not among the sources;
the spec describes `expected` as a typed value, scalar or tuple. -/
inductive ClauseExpected where
  | str (s : String)
  | strs (l : List String)
deriving DecidableEq, Repr

/-- A single clause, `SingleClause` in src/degreepath/clause.py.

Modelled from the spec: src/degreepath/clause.py is not among the sources;
the spec gives `Single` as key, operator, expected plus the metadata fields
`at_most` and `treat_in_progress_as_pass`, which are "metadata, not used by
`apply`" nor by the subset test, and are omitted here. -/
structure SingleClause where
  key : String
  expected : ClauseExpected
  operator : Operator
deriving DecidableEq, Repr

/-- Semantic implication between two single clauses.

Modelled from the spec: src/degreepath/clause.py is not among the sources.
Per the spec, for two single clauses with the same key: EQ-to-`x` is a subset
of IN-of-`S` iff `x` is a member of `S`; IN-of-`T` is a subset of IN-of-`S`
iff every member of `T` is a member of `S`; EQ-to-`x` is a subset of
EQ-to-`y` iff `x = y`; other combinations conservatively return false, and
clauses with different keys are never subsets of one another. -/
def SingleClause.is_subset (self other : SingleClause) : Bool :=
  if self.key ≠ other.key then
    false
  else
    match self.operator, self.expected, other.operator, other.expected with
    | .EqualTo, .str x, .In, .strs s => s.contains x
    | .In, .strs t, .In, .strs s => t.all s.contains
    | .EqualTo, .str x, .EqualTo, .str y => x == y
    | _, _, _, _ => false

/-- One transcript line, restricted to the fields consulted by the functions
verified here.

Modelled from the spec: src/degreepath/data/course.py is not among the
sources; the spec's `CourseInstance` record carries `clbid`, `crsid`, the
canonical `course` string, an optional set of `attributes`, and the boolean
`is_in_progress`, among further fields not consulted by `make_claim` or
`completed_courses`. -/
structure CourseInstance where
  clbid : String
  crsid : String
  course : String
  attributes : List String
  is_in_progress : Bool
deriving DecidableEq, Repr

/-- A claim: `Claim` in src/degreepath/claim.py.

Modelled from the spec: src/degreepath/claim.py is not among the sources; the
spec gives `Claim` as `(crsid, clbid, claimant_path, value: Clause)`, equal
iff all four components match. -/
structure Claim where
  crsid : String
  clbid : String
  claimant_path : List String
  value : SingleClause
deriving DecidableEq, Repr

/-- The outcome of `make_claim`: `ClaimAttempt` in src/degreepath/claim.py.

Modelled from the spec: src/degreepath/claim.py is not among the sources; a
claim attempt carries the proposed claim, the frozen set of conflicting prior
claims, and the `did_fail` flag. -/
structure ClaimAttempt where
  claim : Claim
  conflict_with : Finset Claim
  did_fail : Bool
deriving DecidableEq

/-- The claim ledger: `claims: Dict[str, Set[Claim]]`, a `defaultdict(set)`
mapping each clbid to the set of admitted claims (empty by default). -/
def ClaimsMap : Type := String → Finset Claim

/-- The empty ledger (`defaultdict(set)` fresh). -/
def ClaimsMap.empty : ClaimsMap := fun _ => ∅

/-- `self.claims[clbid].add(claim)`: insert a claim into one clbid's set. -/
def ClaimsMap.add (m : ClaimsMap) (clbid : String) (cl : Claim) : ClaimsMap :=
  fun k => if k = clbid then insert cl (m clbid) else m k

/-- A course rule, `BaseCourseRule` in src/degreepath/base/course.py
(fields from that file; the `hidden` and `grade` fields are not consulted by
`make_claim`). -/
structure BaseCourseRule where
  course : String
  hidden : Bool
  allow_claimed : Bool
  path : List String
deriving DecidableEq, Repr

/-- `make_claim` accepts `Union[Clause, BaseCourseRule]`; course rules are
coerced to a clause at the top of the function. -/
inductive ClauseOrRule where
  | clause (c : SingleClause)
  | rule (r : BaseCourseRule)
deriving DecidableEq, Repr

/-- The `getattr(rule, 'allow_claimed', False)` read in `make_claim`: false
when the argument was already a clause (`rule` stays `None`). -/
def ClauseOrRule.ruleAllowClaimed : ClauseOrRule → Bool
  | .clause _ => false
  | .rule r => r.allow_claimed

/-- The clause `make_claim` works with: the argument itself, or for a course
rule the synthesized
`SingleClause(key='course', expected=rule.course, operator=Operator.EqualTo)`. -/
def ClauseOrRule.toClause : ClauseOrRule → SingleClause
  | .clause c => c
  | .rule r => { key := "course", expected := .str r.course, operator := .EqualTo }

/-- The per-audit mutable container, `RequirementContext` in
src/degreepath/context.py, restricted to the fields consulted by `make_claim`
and `completed_courses` (the lookup maps, declared areas and exception table
are not consulted by the functions verified here). -/
structure RequirementContext where
  transcript_ : List CourseInstance
  multicountable : List (List SingleClause)
  claims : ClaimsMap

/-- `RequirementContext.make_claim` from src/degreepath/context.py (lines
94-259), with the mutation of `self.claims` made explicit: the result pairs
the returned `ClaimAttempt` with the updated context.

The `TypeError` guards for a `None` or tuple `clause` are excluded by the
argument type. -/
def make_claim (ctx : RequirementContext) (course : CourseInstance)
    (path : List String) (clauseOrRule : ClauseOrRule) (allow_claimed : Bool) :
    ClaimAttempt × RequirementContext :=
  let clause := clauseOrRule.toClause
  let claim : Claim :=
    { crsid := course.crsid, clbid := course.clbid, claimant_path := path, value := clause }
  if allow_claimed || clauseOrRule.ruleAllowClaimed then
    ({ claim := claim, conflict_with := ∅, did_fail := false }, ctx)
  else
    let prior_claims := ctx.claims course.clbid
    if prior_claims = ∅ then
      ({ claim := claim, conflict_with := ∅, did_fail := false },
       { ctx with claims := ctx.claims.add course.clbid claim })
    else
      let applicable_clausesets :=
        ctx.multicountable.filter (fun clauseset => clauseset.any (fun c => c.is_subset clause))
      if applicable_clausesets = [] then
        if prior_claims ≠ ∅ then
          ({ claim := claim, conflict_with := prior_claims, did_fail := true }, ctx)
        else
          ({ claim := claim, conflict_with := ∅, did_fail := false },
           { ctx with claims := ctx.claims.add course.clbid claim })
      else
        -- `clauses_to_cover = prior_clauses + [clause]`; a clauseset is chosen
        -- iff each clause to cover has some member of the clauseset that is
        -- its subset.
        let covers := fun (clauseset : List SingleClause) =>
          decide (∀ cl ∈ prior_claims, clauseset.any (fun c => c.is_subset cl.value)) &&
            clauseset.any (fun c => c.is_subset clause)
        match applicable_clausesets.find? covers with
        | none =>
          if prior_claims ≠ ∅ then
            ({ claim := claim, conflict_with := prior_claims, did_fail := true }, ctx)
          else
            ({ claim := claim, conflict_with := ∅, did_fail := false },
             { ctx with claims := ctx.claims.add course.clbid claim })
        | some applicable_clauseset =>
          let available_clauses := applicable_clauseset.filter
            (fun c => !(decide (∃ cl ∈ prior_claims, c.is_subset cl.value)))
          if available_clauses = [] then
            if prior_claims ≠ ∅ then
              ({ claim := claim, conflict_with := prior_claims, did_fail := true }, ctx)
            else
              ({ claim := claim, conflict_with := ∅, did_fail := false },
               { ctx with claims := ctx.claims.add course.clbid claim })
          else
            ({ claim := claim, conflict_with := ∅, did_fail := false },
             { ctx with claims := ctx.claims.add course.clbid claim })

/-- `RequirementContext.completed_courses` from src/degreepath/context.py
(lines 77-78) reads
`return (c for c in self.completed_courses())`:
the generator, once consumed, immediately re-enters `completed_courses`.
Consumption is modelled with explicit fuel: each re-entry spends one unit,
and `none` means no list of yielded courses was produced within the given
number of steps. -/
def completed_courses_fuel (ctx : RequirementContext) : Nat → Option (List CourseInstance)
  | 0 => none
  | fuel + 1 => completed_courses_fuel ctx fuel

/-- Modelled from the spec: the intended behaviour of `completed_courses`,
which the spec states is "presumably to filter the transcript to
non-in-progress entries". -/
def completed_courses_intended (ctx : RequirementContext) : List CourseInstance :=
  ctx.transcript_.filter (fun c => !c.is_in_progress)

end Degreepath

namespace Dp

/-- The result statuses.

Modelled from the spec: src/dp/status.py is not among the sources; the spec
lists `ResultStatus` as Empty, NeedsMoreItems, PendingCurrent,
PendingRegistered, PendingApproval, Done, Waived, FailedInvariant. -/
inductive ResultStatus where
  | Empty
  | NeedsMoreItems
  | PendingCurrent
  | PendingRegistered
  | PendingApproval
  | Done
  | Waived
  | FailedInvariant
deriving DecidableEq, Repr

/-- Modelled from the spec:
`PassingStatuses = {Done, Waived, PendingCurrent, PendingRegistered, PendingApproval}`. -/
def PassingStatuses : List ResultStatus :=
  [.Done, .Waived, .PendingCurrent, .PendingRegistered, .PendingApproval]

/-- Comparison operators.

Modelled from the spec: src/dp/op.py is not among the sources; operator
symbols are `$eq, $neq, $lt, $lte, $gt, $gte, $in, $nin`. -/
inductive Operator where
  | EqualTo
  | NotEqualTo
  | LessThan
  | LessThanOrEqualTo
  | GreaterThan
  | GreaterThanOrEqualTo
  | In
  | NotIn
deriving DecidableEq, Repr

/-- Modelled from the spec: `apply_operator` from src/dp/op.py (not among the
sources) compares the reduced numeric value of an assertion with its expected
value. `In`/`NotIn` compare against collections and are forbidden in
assertions by `load_single_assertion`; on numeric operands they are rendered
as false. -/
def apply_operator (lhs : Rat) (op : Operator) (rhs : Rat) : Bool :=
  match op with
  | .EqualTo => decide (lhs = rhs)
  | .NotEqualTo => decide (lhs ≠ rhs)
  | .LessThan => decide (lhs < rhs)
  | .LessThanOrEqualTo => decide (lhs ≤ rhs)
  | .GreaterThan => decide (lhs > rhs)
  | .GreaterThanOrEqualTo => decide (lhs ≥ rhs)
  | .In => false
  | .NotIn => false

/-- The data types an assertion can range over (src/dp/data_type.py is not
among the sources; the spec lists Course, Area, MusicPerformance, Recital). -/
inductive DataType where
  | Course
  | Area
  | MusicPerformance
  | Recital
deriving DecidableEq, Repr

/-- One transcript line, restricted to the fields consulted by the assertion
machinery.

Modelled from the spec: src/dp/data/course.py is not among the sources; the
spec's `CourseInstance` carries `clbid`, `crsid`, the `course` string,
`subject`, `credits` (decimal), year and term, and the booleans
`is_in_progress`, `is_in_progress_this_term`, `is_in_progress_in_future`,
`is_incomplete`. -/
structure CourseInstance where
  clbid : String
  crsid : String
  course : String
  subject : String
  credits : Rat
  year : Int
  term : Int
  is_in_progress : Bool
  is_in_progress_this_term : Bool
  is_in_progress_in_future : Bool
  is_incomplete : Bool
deriving DecidableEq, Repr

/-- The `data` payload of an applied clause: a tuple of strings or a tuple of
decimals (`resolved_items` on `Assertion` has the same shape). -/
inductive ResolvedItems where
  | strs (items : List String)
  | rats (items : List Rat)
deriving DecidableEq, Repr

/-- The result of applying a reducer to a matched set: `AppliedClauseResult`
from src/dp/apply_clause.py (not among the sources): the reduced numeric
`value`, the reduced `data` items, and the `courses` that contributed. -/
structure AppliedClauseResult where
  value : Rat
  data : ResolvedItems
  courses : List CourseInstance
deriving DecidableEq, Repr

/-- A cached predicate expression over the context, from
src/dp/conditional_expression.py. Every expression class there carries a
cached `result: Optional[bool]`; the assertion functions verified here
consult only that field, so the expression tree itself is not represented. -/
structure PredicateExpression where
  result : Option Bool
deriving DecidableEq, Repr

/-- `ValueChangeMode` from src/dp/assertion_clause.py: `Add` is "+",
`Subtract` is "-". -/
inductive ValueChangeMode where
  | Add
  | Subtract
deriving DecidableEq, Repr

/-- `ValueChange` from src/dp/assertion_clause.py. -/
structure ValueChange where
  mode : ValueChangeMode
  expression : PredicateExpression
  amount : Rat
deriving DecidableEq, Repr

/-- The `original` field of an assertion: `Optional[Union[str, Decimal]]`. -/
inductive OriginalValue where
  | str (s : String)
  | dec (d : Rat)
deriving DecidableEq, Repr

/-- `Assertion` from src/dp/assertion_clause.py. The `where` predicate
(src/dp/predicate_clause.py is not among the sources) is represented
shallowly as its `apply` function on a course; Python's `Decimal` becomes
`Rat`. `where` is a Lean keyword, so the field is named `where_`. -/
structure Assertion where
  path : List String
  state : ResultStatus
  data_type : DataType
  where_ : Option (CourseInstance → Bool)
  key : String
  operator : Operator
  expected : Rat
  original : Option OriginalValue
  changes : List ValueChange
  at_most : Bool
  message : Option String
  label : Option String
  treat_in_progress_as_pass : Bool
  evaluated : Bool
  overridden : Bool
  resolved : Option Rat
  resolved_items : Option ResolvedItems
  resolved_clbids : Option (List String)
  inserted_clbids : Option (List String)

/-- Modelled from the spec: `apply_clause_to_assertion_with_courses` from
src/dp/apply_clause.py is not among the sources. The spec's recognised course
reducers are `count(courses)`, `count(terms)`, `count(subjects)`,
`count(distinct_courses)`, `sum(credits)`, `average(grades)` and
`average(credits)`; the counting and summing reducers are modelled here, all
returning the input courses as the contributing set. The averages are not
needed by any claim and, like unrecognised keys (which load-time validation
rejects), fall through to a zero reduction. -/
def apply_clause_to_assertion_with_courses (assertion : Assertion)
    (value : List CourseInstance) : AppliedClauseResult :=
  match assertion.key with
  | "count(courses)" =>
    { value := value.length, data := .strs (value.map (·.course)), courses := value }
  | "count(terms)" =>
    let terms := (value.map (fun c => (c.year, c.term))).dedup
    { value := terms.length, data := .strs (value.map (·.course)), courses := value }
  | "count(subjects)" =>
    let subjects := (value.map (·.subject)).dedup
    { value := subjects.length, data := .strs subjects, courses := value }
  | "count(distinct_courses)" =>
    let crsids := (value.map (·.crsid)).dedup
    { value := crsids.length, data := .strs crsids, courses := value }
  | "sum(credits)" =>
    { value := (value.map (·.credits)).sum, data := .rats (value.map (·.credits)), courses := value }
  | _ =>
    { value := 0, data := .strs [], courses := value }

/-- Modelled from the spec: `apply_clause_to_assertion_with_data` from
src/dp/apply_clause.py is not among the sources; the music reducers
`count(performances)` and `count(recitals)` reduce to the number of matched
items (the items are not courses, so no contributing courses are reported). -/
def apply_clause_to_assertion_with_data (_assertion : Assertion)
    (value : List CourseInstance) : AppliedClauseResult :=
  { value := value.length, data := .strs [], courses := [] }

/-- Modelled from the spec: `apply_clause_to_assertion_with_areas` from
src/dp/apply_clause.py is not among the sources; the area reducer
`count(areas)` reduces to the number of matched items. -/
def apply_clause_to_assertion_with_areas (_assertion : Assertion)
    (value : List CourseInstance) : AppliedClauseResult :=
  { value := value.length, data := .strs [], courses := [] }

/-- `evaluate_with_courses` from src/dp/assertion_clause.py (lines 440-493).
The source's `assert` and `raise Exception('unreachable')` become
`Except.error`. -/
def evaluate_with_courses (assertion : Assertion) (value : List CourseInstance) :
    Except String (ResultStatus × AppliedClauseResult) :=
  let calculated_result := apply_clause_to_assertion_with_courses assertion value
  let operator_result :=
    apply_operator calculated_result.value assertion.operator assertion.expected
  if operator_result then
    let has_ip_courses := calculated_result.courses.any (·.is_in_progress)
    -- does the clause still pass if it's given only non-IP courses?
    let operator_result_no_ip : Bool :=
      if has_ip_courses then
        let non_ip_courses := value.filter (fun c => !c.is_in_progress)
        let calculated_result_no_ip :=
          apply_clause_to_assertion_with_courses assertion non_ip_courses
        apply_operator calculated_result_no_ip.value assertion.operator assertion.expected
      else
        true
    if assertion.treat_in_progress_as_pass || operator_result_no_ip then
      Except.ok (ResultStatus.Done, calculated_result)
    else if has_ip_courses then
      let has_enrolled_courses := calculated_result.courses.any (·.is_in_progress_this_term)
      let has_registered_courses := calculated_result.courses.any (·.is_in_progress_in_future)
      let has_incomplete_courses := calculated_result.courses.any (·.is_incomplete)
      if !(has_enrolled_courses || has_registered_courses || has_incomplete_courses) then
        Except.error "AssertionError"
      else if (has_enrolled_courses || has_incomplete_courses) && !has_registered_courses then
        Except.ok (ResultStatus.PendingCurrent, calculated_result)
      else if has_registered_courses then
        Except.ok (ResultStatus.PendingRegistered, calculated_result)
      else
        Except.error "unreachable"
    else
      Except.ok (ResultStatus.Done, calculated_result)
  else if assertion.operator = .GreaterThan ∧ 0 < calculated_result.value ∧
      calculated_result.value ≤ assertion.expected then
    Except.ok (ResultStatus.NeedsMoreItems, calculated_result)
  else if assertion.operator = .GreaterThanOrEqualTo ∧ 0 < calculated_result.value ∧
      calculated_result.value < assertion.expected then
    Except.ok (ResultStatus.NeedsMoreItems, calculated_result)
  else if assertion.operator = .EqualTo ∧ 0 < calculated_result.value ∧
      calculated_result.value < assertion.expected then
    Except.ok (ResultStatus.NeedsMoreItems, calculated_result)
  else if assertion.operator = .LessThan ∨ assertion.operator = .LessThanOrEqualTo then
    Except.ok (ResultStatus.FailedInvariant, calculated_result)
  else
    Except.ok (ResultStatus.Empty, calculated_result)

/-- `evaluate_with_areas` from src/dp/assertion_clause.py (lines 386-410). -/
def evaluate_with_areas (assertion : Assertion) (value : List CourseInstance) :
    ResultStatus × AppliedClauseResult :=
  let calculated_result := apply_clause_to_assertion_with_areas assertion value
  let computed_value := calculated_result.value
  let operator_result := apply_operator computed_value assertion.operator assertion.expected
  let result :=
    if operator_result then
      ResultStatus.Done
    else if assertion.operator = .GreaterThan ∧ 0 < computed_value ∧
        computed_value ≤ assertion.expected then
      ResultStatus.NeedsMoreItems
    else if assertion.operator = .GreaterThanOrEqualTo ∧ 0 < computed_value ∧
        computed_value < assertion.expected then
      ResultStatus.NeedsMoreItems
    else if assertion.operator = .EqualTo ∧ 0 < computed_value ∧
        computed_value < assertion.expected then
      ResultStatus.NeedsMoreItems
    else if assertion.operator = .LessThan ∨ assertion.operator = .LessThanOrEqualTo then
      ResultStatus.FailedInvariant
    else
      ResultStatus.Empty
  (result, calculated_result)

/-- `evaluate_with_items` from src/dp/assertion_clause.py (lines 413-437). -/
def evaluate_with_items (assertion : Assertion) (value : List CourseInstance) :
    ResultStatus × AppliedClauseResult :=
  let calculated_result := apply_clause_to_assertion_with_data assertion value
  let computed_value := calculated_result.value
  let operator_result := apply_operator computed_value assertion.operator assertion.expected
  let result :=
    if operator_result then
      ResultStatus.Done
    else if assertion.operator = .GreaterThan ∧ 0 < computed_value ∧
        computed_value ≤ assertion.expected then
      ResultStatus.NeedsMoreItems
    else if assertion.operator = .GreaterThanOrEqualTo ∧ 0 < computed_value ∧
        computed_value < assertion.expected then
      ResultStatus.NeedsMoreItems
    else if assertion.operator = .EqualTo ∧ 0 < computed_value ∧
        computed_value < assertion.expected then
      ResultStatus.NeedsMoreItems
    else if assertion.operator = .LessThan ∨ assertion.operator = .LessThanOrEqualTo then
      ResultStatus.FailedInvariant
    else
      ResultStatus.Empty
  (result, calculated_result)

/-- `Assertion.evaluate` from src/dp/assertion_clause.py (lines 218-229):
dispatch on the data type. The `Clausable` items flowing through this
development are course instances (the Python code's `cast` is the identity). -/
def Assertion.evaluate (self : Assertion) (value : List CourseInstance) :
    Except String (ResultStatus × AppliedClauseResult) :=
  match self.data_type with
  | .Course => evaluate_with_courses self value
  | .Area => Except.ok (evaluate_with_areas self value)
  | .MusicPerformance | .Recital => Except.ok (evaluate_with_items self value)

/-- The per-audit context as consulted by `Assertion.audit_and_resolve`.

Modelled from the spec: src/dp/context.py is not among the sources; the spec
says the context exposes `get_insert_exceptions(path)` (the insert exceptions
recorded at a rule path, each carrying a `clbid`) and the clbid lookup over
the transcript, with `forced_course_by_clbid` raising a `ContextError` when
the forced clbid is absent. -/
structure RequirementContext where
  clbid_lookup_map : List (String × CourseInstance)
  insert_exceptions : List (List String × String)

/-- The clbids of the insert exceptions recorded at `path`. -/
def RequirementContext.get_insert_exceptions (ctx : RequirementContext)
    (path : List String) : List String :=
  (ctx.insert_exceptions.filter (fun pe => pe.1 = path)).map Prod.snd

/-- Forced lookup by clbid; an absent clbid is a `ContextError`. -/
def RequirementContext.forced_course_by_clbid (ctx : RequirementContext)
    (clbid : String) : Except String CourseInstance :=
  match ctx.clbid_lookup_map.lookup clbid with
  | some c => Except.ok c
  | none => Except.error "ContextError: clbid not found in transcript"

/-- `Assertion.audit_and_resolve` from src/dp/assertion_clause.py (lines
190-216): filter by `where`, append force-inserted courses, evaluate, and
return the resolved copy. -/
def Assertion.audit_and_resolve (self : Assertion) (data : List CourseInstance)
    (ctx : RequirementContext) : Except String Assertion := do
  if self.overridden then
    return self
  let filtered_output :=
    match self.where_ with
    | some w => data.filter w
    | none => data
  let inserted_courses ← (ctx.get_insert_exceptions self.path).mapM
    (fun clbid => ctx.forced_course_by_clbid clbid)
  let filtered_output := filtered_output ++ inserted_courses
  let inserted_clbids := inserted_courses.map (·.clbid)
  let (result_status, calculated_result) ← self.evaluate filtered_output
  return { self with
    evaluated := true
    state := result_status
    resolved := some calculated_result.value
    resolved_items := some calculated_result.data
    resolved_clbids := some (calculated_result.courses.map (·.clbid))
    inserted_clbids := some inserted_clbids }

/-- `Assertion.status` from src/dp/assertion_clause.py (lines 234-235). -/
def Assertion.status (self : Assertion) : ResultStatus := self.state

/-- `Assertion.rank` from src/dp/assertion_clause.py (lines 237-251); the
source's `assert self.resolved is not None` becomes an error result. -/
def Assertion.rank (self : Assertion) : Except String (Rat × Rat) :=
  if self.state = .Done ∨ self.state = .Waived then
    Except.ok (1, 1)
  else
    match self.resolved with
    | none => Except.error "AssertionError: resolved is None"
    | some resolved =>
      if self.operator = .LessThan ∨ self.operator = .LessThanOrEqualTo then
        Except.ok (0, 1)
      else if self.expected ≠ 0 then
        Except.ok (min 1 (resolved / self.expected), 1)
      else
        Except.ok (0, 1)

/-- The declared field names of `Assertion` (src/dp/assertion_clause.py lines
63-87), in declaration order. `attr.evolve` passes its keyword arguments to
the attrs-generated constructor, which rejects any keyword naming no declared
field. -/
def assertionFieldNames : List String :=
  ["path", "state", "data_type", "where", "key", "operator", "expected", "original",
   "changes", "at_most", "message", "label", "treat_in_progress_as_pass",
   "evaluated", "overridden", "resolved", "resolved_items", "resolved_clbids",
   "inserted_clbids"]

/-- `Assertion.waive` from src/dp/assertion_clause.py (lines 181-188). The
source calls
`attr.evolve(self, resolved=0, evaluated=True, status=ResultStatus.Waived, overridden=True)`.
`attr.evolve` accepts only keywords that name declared fields of the class;
the guard below performs that check. `Assertion` declares a field `state`
(`status` is a method), so the keyword `status` makes the call raise
`TypeError` before any update happens; the update branch (which can only set
the keywords that do name fields) is unreachable. -/
def Assertion.waive (self : Assertion) : Except String Assertion :=
  if ["resolved", "evaluated", "status", "overridden"].all
      (fun kw => assertionFieldNames.contains kw) then
    Except.ok { self with resolved := some 0, evaluated := true, overridden := true }
  else
    Except.error "TypeError: init got an unexpected keyword argument: status"

/-- `ConditionalAssertion` from src/dp/assertion_clause.py (lines 272-277). -/
structure ConditionalAssertion where
  path : List String
  condition : PredicateExpression
  when_true : Assertion
  when_false : Option Assertion

/-- `ConditionalAssertion.audit_and_resolve` from src/dp/assertion_clause.py
(lines 317-329): audit `when_true` or `when_false` according to the evaluated
condition; with the condition false and `when_false` absent, return `self`;
with the condition not yet evaluated, raise. -/
def ConditionalAssertion.audit_and_resolve (self : ConditionalAssertion)
    (data : List CourseInstance) (ctx : RequirementContext) :
    Except String ConditionalAssertion :=
  match self.condition.result with
  | some true => do
    let when_true ← self.when_true.audit_and_resolve data ctx
    return { self with when_true := when_true }
  | some false =>
    match self.when_false with
    | some wf => do
      let when_false ← wf.audit_and_resolve data ctx
      return { self with when_false := some when_false }
    | none => Except.ok self
  | none => Except.error "conditional assertion condition not evaluated!"

/-- `ConditionalAssertion.status` from src/dp/assertion_clause.py (lines
337-343). -/
def ConditionalAssertion.status (self : ConditionalAssertion) : ResultStatus :=
  match self.condition.result, self.when_false with
  | some true, _ => self.when_true.status
  | some false, some wf => wf.status
  | _, _ => ResultStatus.Empty

/-- `ConditionalAssertion.rank` from src/dp/assertion_clause.py (lines
345-351). -/
def ConditionalAssertion.rank (self : ConditionalAssertion) :
    Except String (Rat × Rat) :=
  match self.condition.result, self.when_false with
  | some true, _ => self.when_true.rank
  | some false, some wf => wf.rank
  | _, _ => Except.ok (0, 1)

/-- A child rule of a requirement, represented by its resolved status.

Modelled from the spec: the base rule class (src/dp/base/bases.py) is not
among the sources; `BaseRequirementRule.status` consults its body only
through the body's `status()` method, so the body is represented by that
value here. The base-class `status()` of a bodyless rule is modelled as
`Empty`, the spec's status for unevaluated and unsatisfiable rules. -/
structure Base where
  statusVal : ResultStatus
deriving DecidableEq, Repr

/-- `Base.status`, the base-class default consulted via `super().status()`.
Modelled from the spec as `Empty` (see `Base`). -/
def Base.status (b : Base) : ResultStatus := b.statusVal

/-- `BaseRequirementRule` from src/dp/base/requirement.py (lines 12-20). -/
structure BaseRequirementRule where
  name : String
  message : Option String
  result : Option Base
  is_audited : Bool
  is_contract : Bool
  in_gpa : Bool
  disjoint : Option Bool
deriving DecidableEq, Repr

/-- `BaseRequirementRule.status` from src/dp/base/requirement.py (lines
35-42): with no result body, fall back to `super().status()` (the base
default, modelled as `Empty`); otherwise `PendingApproval` when audited, else
the body's status. -/
def BaseRequirementRule.status (self : BaseRequirementRule) : ResultStatus :=
  match self.result with
  | none => ResultStatus.Empty
  | some result =>
    if self.is_audited then
      ResultStatus.PendingApproval
    else
      result.status

end Dp

namespace Degreepath

/-- The clause `attributes = elective` of the multicountable policy of
Scenario D. -/
def electiveClause : SingleClause :=
  { key := "attributes", expected := .str "elective", operator := .EqualTo }

/-- The clause `attributes = post1800` of Scenario D. -/
def post1800Clause : SingleClause :=
  { key := "attributes", expected := .str "post1800", operator := .EqualTo }

/-- The clause `attributes = war` of Scenario D. -/
def warClause : SingleClause :=
  { key := "attributes", expected := .str "war", operator := .EqualTo }

/-- The Scenario D multicountable policy:
elective/post1800 and elective/war. -/
def multicountablePolicy : List (List SingleClause) :=
  [[electiveClause, post1800Clause], [electiveClause, warClause]]

/-- The Scenario D course: clbid `c1` with attributes elective, post1800 and
war. -/
def hist101 : CourseInstance :=
  { clbid := "c1", crsid := "crs-hist-101", course := "HIST 101",
    attributes := ["elective", "post1800", "war"], is_in_progress := false }

/-- A context holding the Scenario D course and multicountable policy, with
an empty claim ledger. -/
def scenarioCtx : RequirementContext :=
  { transcript_ := [hist101], multicountable := multicountablePolicy,
    claims := ClaimsMap.empty }

/-- The first Scenario D claim: claim `c1` under `attributes = post1800`. -/
def firstClaimResult : ClaimAttempt × RequirementContext :=
  make_claim scenarioCtx hist101 ["queryA"] (.clause post1800Clause) false

/-- The second Scenario D claim: claim `c1` again, from a different claimant
path, under `attributes = war`, against the ledger left by the first claim. -/
def secondClaimResult : ClaimAttempt × RequirementContext :=
  make_claim firstClaimResult.2 hist101 ["queryB"] (.clause warClause) false

/-- The claim the first Scenario D attempt records. -/
def firstClaim : Claim :=
  { crsid := "crs-hist-101", clbid := "c1", claimant_path := ["queryA"],
    value := post1800Clause }

/-- A non-in-progress completed course, used to separate the intended
`completed_courses` from the written one. -/
def bio101 : CourseInstance :=
  { clbid := "c2", crsid := "crs-bio-101", course := "BIO 101",
    attributes := [], is_in_progress := false }

/-- A context whose transcript has one completed course and no policy. -/
def completedCtx : RequirementContext :=
  { transcript_ := [bio101], multicountable := [], claims := ClaimsMap.empty }

end Degreepath

namespace Dp

/-- A completed (not in-progress) course. -/
def courseA : CourseInstance :=
  { clbid := "a", crsid := "crs-a", course := "DEPT 101", subject := "DEPT",
    credits := 1, year := 2019, term := 1, is_in_progress := false,
    is_in_progress_this_term := false, is_in_progress_in_future := false,
    is_incomplete := false }

/-- A second completed (not in-progress) course. -/
def courseB : CourseInstance :=
  { clbid := "b", crsid := "crs-b", course := "DEPT 102", subject := "DEPT",
    credits := 1, year := 2019, term := 3, is_in_progress := false,
    is_in_progress_this_term := false, is_in_progress_in_future := false,
    is_incomplete := false }

/-- An in-progress course enrolled this term. -/
def ipCourse : CourseInstance :=
  { clbid := "ip", crsid := "crs-ip", course := "DEPT 201", subject := "DEPT",
    credits := 1, year := 2024, term := 1, is_in_progress := true,
    is_in_progress_this_term := true, is_in_progress_in_future := false,
    is_incomplete := false }

/-- A course-type assertion `count(courses) > 2` (no where clause, not
overridden, in-progress not treated as passing). -/
def gtCountAssertion : Assertion :=
  { path := [], state := .Empty, data_type := .Course, where_ := none,
    key := "count(courses)", operator := .GreaterThan, expected := 2,
    original := none, changes := [], at_most := false, message := none,
    label := none, treat_in_progress_as_pass := false, evaluated := false,
    overridden := false, resolved := none, resolved_items := none,
    resolved_clbids := none, inserted_clbids := none }

/-- A course-type assertion `count(courses) >= 1` with
`treat_in_progress_as_pass` false. -/
def gteCountAssertion : Assertion :=
  { path := [], state := .Empty, data_type := .Course, where_ := none,
    key := "count(courses)", operator := .GreaterThanOrEqualTo, expected := 1,
    original := none, changes := [], at_most := false, message := none,
    label := none, treat_in_progress_as_pass := false, evaluated := false,
    overridden := false, resolved := none, resolved_items := none,
    resolved_clbids := none, inserted_clbids := none }

/-- An empty requirement context: no transcript, no insert exceptions. -/
def emptyCtx : RequirementContext :=
  { clbid_lookup_map := [], insert_exceptions := [] }

/-- A conditional assertion whose condition has evaluated to false and whose
`when_false` branch is absent. -/
def condFalseNoElse : ConditionalAssertion :=
  { path := [], condition := { result := some false },
    when_true := gteCountAssertion, when_false := none }

/-- An audited requirement rule whose result body is absent. -/
def auditedBodylessReq : BaseRequirementRule :=
  { name := "Audited", message := none, result := none, is_audited := true,
    is_contract := false, in_gpa := false, disjoint := none }

/-- An audited requirement rule with a (pending) result body. -/
def auditedReqWithBody : BaseRequirementRule :=
  { name := "Audited", message := none, result := some { statusVal := .Empty },
    is_audited := true, is_contract := false, in_gpa := false, disjoint := none }

end Dp

/-- C1: with the multicountable policy
elective/post1800, elective/war and a single course `c1` carrying all three
attributes, a first `make_claim` under `attributes = post1800` succeeds, and a
second `make_claim` of the same course from a different claimant path under
`attributes = war` (with `allow_claimed` false) fails with `did_fail = true`
and `conflict_with` equal to the prior claim: no single clauseset covers both
the prior clause and the new one. -/
theorem c1_second_multicountable_claim_conflicts :
    Degreepath.firstClaimResult.1.did_fail = false ∧
    Degreepath.secondClaimResult.1.did_fail = true ∧
    Degreepath.secondClaimResult.1.conflict_with = {Degreepath.firstClaim} := by
  decide

/-- C3: `make_claim` with `allow_claimed = true` returns a successful
`ClaimAttempt` (no failure, no conflicts) and leaves the claim ledger exactly
as it was: the claim is not recorded. -/
theorem c3_allow_claimed_is_unrecorded
    (ctx : Degreepath.RequirementContext) (course : Degreepath.CourseInstance)
    (path : List String) (clauseOrRule : Degreepath.ClauseOrRule) :
    (Degreepath.make_claim ctx course path clauseOrRule true).1.did_fail = false ∧
    (Degreepath.make_claim ctx course path clauseOrRule true).1.conflict_with = ∅ ∧
    (Degreepath.make_claim ctx course path clauseOrRule true).2.claims = ctx.claims := by
  unfold Degreepath.make_claim
  simp

/-- C10: consuming the iterator returned by `completed_courses` never yields
a course, no matter how many evaluation steps are spent: the generator
re-enters `completed_courses` unconditionally, with no decreasing measure.
The intended behaviour, filtering the transcript to non-in-progress entries,
is not what the code computes: on a transcript holding one completed course
the intended function returns that course while the written one produces
nothing at every fuel. -/
theorem c10_completed_courses_never_yields :
    (∀ (ctx : Degreepath.RequirementContext) (fuel : Nat),
        Degreepath.completed_courses_fuel ctx fuel = none) ∧
    Degreepath.completed_courses_intended Degreepath.completedCtx =
      [Degreepath.bio101] ∧
    ∀ fuel : Nat,
      Degreepath.completed_courses_fuel Degreepath.completedCtx fuel ≠
        some [Degreepath.bio101] := by
  have hfuel : ∀ (ctx : Degreepath.RequirementContext) (fuel : Nat),
      Degreepath.completed_courses_fuel ctx fuel = none := by
    intro ctx fuel
    induction fuel with
    | zero => rfl
    | succ n ih => simpa [Degreepath.completed_courses_fuel] using ih
  refine ⟨hfuel, by decide, ?_⟩
  intro fuel h
  rw [hfuel] at h
  exact Option.noConfusion h

/-- C8: `Assertion.waive` does not return a waived assertion: the source
passes the keyword `status=ResultStatus.Waived` to `attr.evolve`, but the
field of `Assertion` is named `state`, so the call raises `TypeError` for
every assertion instead of producing an assertion with status `Waived` and
rank `(1, 1)`. -/
theorem c8_waive_raises_type_error (a : Dp.Assertion) :
    a.waive =
      Except.error "TypeError: init got an unexpected keyword argument: status" := by
  rfl

/-- C9 counterexample: an audited requirement rule whose result body is
absent does not get status `PendingApproval`: `status()` returns
`super().status()` before consulting `is_audited`, so the status is the base
default `Empty`. -/
theorem c9_counterexample :
    Dp.auditedBodylessReq.is_audited = true ∧
    Dp.auditedBodylessReq.status = Dp.ResultStatus.Empty ∧
    Dp.ResultStatus.Empty ≠ Dp.ResultStatus.PendingApproval := by
  decide

/-- C9 amended: a Requirement rule with `is_audited = true` and a present
result body has status `PendingApproval`, computed without evaluating the
body; with the body absent, `status()` falls back to the base default
instead. -/
theorem c9_audited_requirement_with_body_is_pending_approval
    (r : Dp.BaseRequirementRule) (b : Dp.Base)
    (haudited : r.is_audited = true) (hbody : r.result = some b) :
    r.status = Dp.ResultStatus.PendingApproval := by
  unfold Dp.BaseRequirementRule.status
  rw [hbody]
  simp [haudited]

/-- C9 witness: the amended statement at a concrete audited requirement rule
with a body. -/
theorem c9_witness :
    Dp.auditedReqWithBody.is_audited = true ∧
    Dp.auditedReqWithBody.result = some { statusVal := Dp.ResultStatus.Empty } ∧
    Dp.auditedReqWithBody.status = Dp.ResultStatus.PendingApproval :=
  ⟨rfl, rfl,
    c9_audited_requirement_with_body_is_pending_approval Dp.auditedReqWithBody
      { statusVal := Dp.ResultStatus.Empty } rfl rfl⟩

/-- C7 counterexample: a conditional assertion whose condition evaluated to
false and whose `when_false` branch is absent is not resolved to a
tautologically-passing placeholder: `audit_and_resolve` returns the
conditional assertion itself, whose status is `Empty` (not a passing status)
and whose rank is `(0, 1)`, strictly below the max rank of 1. -/
theorem c7_counterexample :
    Dp.condFalseNoElse.audit_and_resolve [] Dp.emptyCtx =
      Except.ok Dp.condFalseNoElse ∧
    Dp.condFalseNoElse.status = Dp.ResultStatus.Empty ∧
    Dp.ResultStatus.Empty ∉ Dp.PassingStatuses ∧
    Dp.condFalseNoElse.rank = Except.ok (0, 1) ∧
    (0 : Rat) ≠ 1 := by
  refine ⟨rfl, rfl, by decide, rfl, by norm_num⟩

/-- C7 amended: for every conditional assertion whose condition has evaluated
to false and whose `when_false` branch is absent, `audit_and_resolve` returns
the conditional assertion unchanged; its status is `Empty` and its rank is
`(0, 1)`, not a passing placeholder. -/
theorem c7_condition_false_without_else_returns_self
    (ca : Dp.ConditionalAssertion) (data : List Dp.CourseInstance)
    (ctx : Dp.RequirementContext)
    (hcond : ca.condition.result = some false) (helse : ca.when_false = none) :
    ca.audit_and_resolve data ctx = Except.ok ca ∧
    ca.status = Dp.ResultStatus.Empty ∧
    ca.rank = Except.ok (0, 1) := by
  unfold Dp.ConditionalAssertion.audit_and_resolve Dp.ConditionalAssertion.status
    Dp.ConditionalAssertion.rank
  rw [hcond, helse]
  exact ⟨rfl, rfl, rfl⟩

/-- C7 witness: the amended statement at a concrete conditional assertion. -/
theorem c7_witness :
    Dp.condFalseNoElse.condition.result = some false ∧
    Dp.condFalseNoElse.when_false = none ∧
    (Dp.condFalseNoElse.audit_and_resolve [] Dp.emptyCtx =
        Except.ok Dp.condFalseNoElse ∧
      Dp.condFalseNoElse.status = Dp.ResultStatus.Empty ∧
      Dp.condFalseNoElse.rank = Except.ok (0, 1)) :=
  ⟨rfl, rfl,
    c7_condition_false_without_else_returns_self Dp.condFalseNoElse [] Dp.emptyCtx
      rfl rfl⟩

/-- C2: with `allow_claimed = false` and no prior claims recorded for the
course's clbid, `make_claim` returns a successful `ClaimAttempt` (no failure,
empty conflict set) and records the new claim in the ledger entry for that
clbid. -/
theorem c2_no_prior_claims_records_and_succeeds
    (ctx : Degreepath.RequirementContext) (course : Degreepath.CourseInstance)
    (path : List String) (clause : Degreepath.SingleClause)
    (h : ctx.claims course.clbid = ∅) :
    (Degreepath.make_claim ctx course path (.clause clause) false).1.did_fail = false ∧
    (Degreepath.make_claim ctx course path (.clause clause) false).1.conflict_with = ∅ ∧
    (Degreepath.make_claim ctx course path (.clause clause) false).2.claims =
      ctx.claims.add course.clbid
        { crsid := course.crsid, clbid := course.clbid, claimant_path := path,
          value := clause } := by
  unfold Degreepath.make_claim
  simp [Degreepath.ClauseOrRule.ruleAllowClaimed, Degreepath.ClauseOrRule.toClause, h]

/-- C2 witness: the statement at a concrete course, path and clause over an
empty ledger. -/
theorem c2_witness :
    Degreepath.scenarioCtx.claims Degreepath.hist101.clbid = ∅ ∧
    ((Degreepath.make_claim Degreepath.scenarioCtx Degreepath.hist101 ["queryA"]
        (.clause Degreepath.post1800Clause) false).1.did_fail = false ∧
      (Degreepath.make_claim Degreepath.scenarioCtx Degreepath.hist101 ["queryA"]
        (.clause Degreepath.post1800Clause) false).1.conflict_with = ∅ ∧
      (Degreepath.make_claim Degreepath.scenarioCtx Degreepath.hist101 ["queryA"]
        (.clause Degreepath.post1800Clause) false).2.claims =
        Degreepath.scenarioCtx.claims.add Degreepath.hist101.clbid
          { crsid := Degreepath.hist101.crsid, clbid := Degreepath.hist101.clbid,
            claimant_path := ["queryA"], value := Degreepath.post1800Clause }) :=
  ⟨rfl,
    c2_no_prior_claims_records_and_succeeds Degreepath.scenarioCtx Degreepath.hist101
      ["queryA"] Degreepath.post1800Clause rfl⟩

/-- C4: whenever `make_claim` returns a failed `ClaimAttempt`
(`did_fail = true`), the claim ledger is unchanged: every failure branch of
the function returns before a claim is added, so rejection is atomic. -/
theorem c4_failed_claim_preserves_ledger
    (ctx : Degreepath.RequirementContext) (course : Degreepath.CourseInstance)
    (path : List String) (clauseOrRule : Degreepath.ClauseOrRule)
    (allow_claimed : Bool)
    (h : (Degreepath.make_claim ctx course path clauseOrRule allow_claimed).1.did_fail
      = true) :
    (Degreepath.make_claim ctx course path clauseOrRule allow_claimed).2.claims =
      ctx.claims := by
  revert h
  unfold Degreepath.make_claim
  dsimp only
  repeat' split
  all_goals intro h
  all_goals first
    | rfl
    | simp at h

/-- C4 witness: the second Scenario D claim fails, and the ledger after the
failed call equals the ledger before it. -/
theorem c4_witness :
    (Degreepath.make_claim Degreepath.firstClaimResult.2 Degreepath.hist101
        ["queryB"] (.clause Degreepath.warClause) false).1.did_fail = true ∧
    (Degreepath.make_claim Degreepath.firstClaimResult.2 Degreepath.hist101
        ["queryB"] (.clause Degreepath.warClause) false).2.claims =
      Degreepath.firstClaimResult.2.claims :=
  ⟨by decide,
    c4_failed_claim_preserves_ledger Degreepath.firstClaimResult.2 Degreepath.hist101
      ["queryB"] (.clause Degreepath.warClause) false (by decide)⟩


/-- Every course reducer reports the input courses as the contributing set. -/
theorem apply_clause_with_courses_courses_eq (a : Dp.Assertion)
    (value : List Dp.CourseInstance) :
    (Dp.apply_clause_to_assertion_with_courses a value).courses = value := by
  unfold Dp.apply_clause_to_assertion_with_courses
  repeat' split
  all_goals rfl

/-- C5 counterexample: a course-type assertion `count(courses) > 2` over two
matched courses has a false operator comparison with computed value 2 equal
to the expected value 2, so the claim's classification (`NeedsMoreItems` only
when `0 < computed < expected`, hence `Empty` here) disagrees with the code,
which tests `computed <= expected` for `GT` and returns `NeedsMoreItems`. -/
theorem c5_counterexample :
    Dp.apply_operator
      (Dp.apply_clause_to_assertion_with_courses Dp.gtCountAssertion
        [Dp.courseA, Dp.courseB]).value
      Dp.gtCountAssertion.operator Dp.gtCountAssertion.expected = false ∧
    Dp.gtCountAssertion.operator = Dp.Operator.GreaterThan ∧
    (Dp.apply_clause_to_assertion_with_courses Dp.gtCountAssertion
        [Dp.courseA, Dp.courseB]).value = Dp.gtCountAssertion.expected ∧
    Dp.evaluate_with_courses Dp.gtCountAssertion [Dp.courseA, Dp.courseB] =
      Except.ok (Dp.ResultStatus.NeedsMoreItems,
        Dp.apply_clause_to_assertion_with_courses Dp.gtCountAssertion
          [Dp.courseA, Dp.courseB]) ∧
    Dp.ResultStatus.NeedsMoreItems ≠ Dp.ResultStatus.Empty := by
  refine ⟨by decide, rfl, by decide, by rfl, by decide⟩

set_option maxHeartbeats 1600000 in
/-- C5 amended: for a course-type assertion whose operator comparison over
the reduced value is false, the status is `NeedsMoreItems` exactly when the
operator is GT and `0 < computed <= expected` (the bound is inclusive), or
the operator is GTE or EQ and `0 < computed < expected`; it is
`FailedInvariant` exactly when the operator is LT or LTE; and it is `Empty`
in every other false-comparison case. -/
theorem c5_false_comparison_status_classification
    (a : Dp.Assertion) (value : List Dp.CourseInstance)
    (hfalse : Dp.apply_operator
        (Dp.apply_clause_to_assertion_with_courses a value).value a.operator
        a.expected = false) :
    Dp.evaluate_with_courses a value =
      Except.ok
        ((if (a.operator = Dp.Operator.GreaterThan ∧
              0 < (Dp.apply_clause_to_assertion_with_courses a value).value ∧
              (Dp.apply_clause_to_assertion_with_courses a value).value ≤ a.expected) ∨
            ((a.operator = Dp.Operator.GreaterThanOrEqualTo ∨
                a.operator = Dp.Operator.EqualTo) ∧
              0 < (Dp.apply_clause_to_assertion_with_courses a value).value ∧
              (Dp.apply_clause_to_assertion_with_courses a value).value < a.expected)
          then Dp.ResultStatus.NeedsMoreItems
          else if a.operator = Dp.Operator.LessThan ∨
              a.operator = Dp.Operator.LessThanOrEqualTo
          then Dp.ResultStatus.FailedInvariant
          else Dp.ResultStatus.Empty),
        Dp.apply_clause_to_assertion_with_courses a value) := by
  unfold Dp.evaluate_with_courses
  simp only [hfalse, Bool.false_eq_true, if_false]
  split_ifs
  all_goals first | rfl | tauto

/-- C5 witness: the amended classification at the concrete GT assertion whose
computed value equals its expected value. -/
theorem c5_witness :
    Dp.apply_operator
      (Dp.apply_clause_to_assertion_with_courses Dp.gtCountAssertion
        [Dp.courseA, Dp.courseB]).value
      Dp.gtCountAssertion.operator Dp.gtCountAssertion.expected = false ∧
    Dp.evaluate_with_courses Dp.gtCountAssertion [Dp.courseA, Dp.courseB] =
      Except.ok (Dp.ResultStatus.NeedsMoreItems,
        Dp.apply_clause_to_assertion_with_courses Dp.gtCountAssertion
          [Dp.courseA, Dp.courseB]) := by
  refine ⟨by decide, ?_⟩
  have h := c5_false_comparison_status_classification Dp.gtCountAssertion
    [Dp.courseA, Dp.courseB] (by decide)
  rw [h]
  rfl

/-- C6: for a course-type assertion with `treat_in_progress_as_pass` false
whose operator comparison is true over the matched set but false once the
in-progress courses are removed from the input (the assertion only passes
with an in-progress course included), provided every in-progress matched
course is enrolled this term, registered in a future term, or incomplete, the
resulting status is `PendingCurrent` or `PendingRegistered` and never
`Done`. -/
theorem c6_pass_dependent_on_ip_is_pending
    (a : Dp.Assertion) (value : List Dp.CourseInstance)
    (htreat : a.treat_in_progress_as_pass = false)
    (htrue : Dp.apply_operator
        (Dp.apply_clause_to_assertion_with_courses a value).value a.operator
        a.expected = true)
    (hnoip : Dp.apply_operator
        (Dp.apply_clause_to_assertion_with_courses a
          (value.filter (fun c => !c.is_in_progress))).value a.operator
        a.expected = false)
    (hip : ∀ c ∈ (Dp.apply_clause_to_assertion_with_courses a value).courses,
        c.is_in_progress = true →
        (c.is_in_progress_this_term = true ∨ c.is_in_progress_in_future = true ∨
          c.is_incomplete = true)) :
    ∃ st, Dp.evaluate_with_courses a value =
        Except.ok (st, Dp.apply_clause_to_assertion_with_courses a value) ∧
      (st = Dp.ResultStatus.PendingCurrent ∨
        st = Dp.ResultStatus.PendingRegistered) ∧
      st ≠ Dp.ResultStatus.Done := by
  have hcourses := apply_clause_with_courses_courses_eq a value
  rw [hcourses] at hip
  have hanyip : value.any (fun c => c.is_in_progress) = true := by
    by_contra hany
    have hall : ∀ c ∈ value, ¬(c.is_in_progress = true) := by
      intro c hc hct
      exact hany (List.any_eq_true.mpr ⟨c, hc, hct⟩)
    have hfilter : value.filter (fun c => !c.is_in_progress) = value := by
      apply List.filter_eq_self.mpr
      intro c hc
      have hf := hall c hc
      rw [Bool.not_eq_true] at hf
      simp [hf]
    rw [hfilter, htrue] at hnoip
    exact Bool.noConfusion hnoip
  obtain ⟨cw, hcwmem, hcwip⟩ := List.any_eq_true.mp hanyip
  have h3 := hip cw hcwmem hcwip
  have hone : value.any (fun c => c.is_in_progress_this_term) = true ∨
      value.any (fun c => c.is_in_progress_in_future) = true ∨
      value.any (fun c => c.is_incomplete) = true := by
    rcases h3 with h | h | h
    · exact Or.inl (List.any_eq_true.mpr ⟨cw, hcwmem, h⟩)
    · exact Or.inr (Or.inl (List.any_eq_true.mpr ⟨cw, hcwmem, h⟩))
    · exact Or.inr (Or.inr (List.any_eq_true.mpr ⟨cw, hcwmem, h⟩))
  by_cases hreg : value.any (fun c => c.is_in_progress_in_future) = true
  · refine ⟨Dp.ResultStatus.PendingRegistered, ?_, Or.inr rfl, by decide⟩
    unfold Dp.evaluate_with_courses
    simp [htrue, hcourses, hanyip, hnoip, htreat, hreg]
  · rw [Bool.not_eq_true] at hreg
    have hei : value.any (fun c => c.is_in_progress_this_term) = true ∨
        value.any (fun c => c.is_incomplete) = true := by
      rcases hone with h | h | h
      · exact Or.inl h
      · rw [hreg] at h
        exact absurd h (by simp)
      · exact Or.inr h
    refine ⟨Dp.ResultStatus.PendingCurrent, ?_, Or.inl rfl, by decide⟩
    unfold Dp.evaluate_with_courses
    rcases hei with he | hi
    · simp [htrue, hcourses, hanyip, hnoip, htreat, hreg, he]
    · simp [htrue, hcourses, hanyip, hnoip, htreat, hreg, hi]

/-- C6 witness: the statement at a concrete `count(courses) >= 1` assertion
whose only matched course is in progress and enrolled this term. -/
theorem c6_witness :
    ∃ st, Dp.evaluate_with_courses Dp.gteCountAssertion [Dp.ipCourse] =
        Except.ok (st, Dp.apply_clause_to_assertion_with_courses
          Dp.gteCountAssertion [Dp.ipCourse]) ∧
      (st = Dp.ResultStatus.PendingCurrent ∨
        st = Dp.ResultStatus.PendingRegistered) ∧
      st ≠ Dp.ResultStatus.Done :=
  c6_pass_dependent_on_ip_is_pending Dp.gteCountAssertion [Dp.ipCourse] rfl
    (by decide) (by decide) (by decide)
